import Mathlib

/-!
# Verification of the `math` library (Math.h, Vector.h, Vector.inl)

Shallow embedding of the repository's scalar math helpers and the
`Vector2f` value type.

Scalar values in the source are IEEE-754 `float`s.  We model them with
`FP`: a finite value carries an exact real number (arithmetic on finite
values is exact, i.e. we do not model rounding error or overflow), and
the special values `+inf`, `-inf` and `NaN` are represented explicitly,
with the IEEE-754 rules for producing and propagating them (division by
zero, `0 * inf`, square root of a negative number, and the comparison
semantics under which every comparison with NaN is false except `!=`).
Signed zero is not modelled (the library never distinguishes `-0.0f`).
-/

set_option maxHeartbeats 1000000

open Classical

/-- Model of an IEEE-754 `float`: an exact finite value, an infinity
(`neg = true` for `-inf`), or NaN. -/
inductive FP where
  | fin (val : ℝ)
  | inf (neg : Bool)
  | nan

/-- IEEE `<` comparison: false whenever either operand is NaN. -/
def FP.lt : FP → FP → Prop
  | .nan, _ => False
  | _, .nan => False
  | .fin a, .fin b => a < b
  | .fin _, .inf s => s = false
  | .inf s, .fin _ => s = true
  | .inf s, .inf t => s = true ∧ t = false

/-- IEEE `==` comparison: false whenever either operand is NaN. -/
def FP.ieeeEq : FP → FP → Prop
  | .nan, _ => False
  | _, .nan => False
  | .fin a, .fin b => a = b
  | .fin _, .inf _ => False
  | .inf _, .fin _ => False
  | .inf s, .inf t => s = t

/-- IEEE `!=` comparison: true whenever either operand is NaN. -/
def FP.ieeeNe : FP → FP → Prop
  | .nan, _ => True
  | _, .nan => True
  | .fin a, .fin b => a ≠ b
  | .fin _, .inf _ => True
  | .inf _, .fin _ => True
  | .inf s, .inf t => s ≠ t

/-- IEEE addition (exact on finite operands). -/
noncomputable def FP.add : FP → FP → FP
  | .nan, _ => .nan
  | _, .nan => .nan
  | .fin a, .fin b => .fin (a + b)
  | .fin _, .inf s => .inf s
  | .inf s, .fin _ => .inf s
  | .inf s, .inf t => if s = t then .inf s else .nan

/-- IEEE subtraction (exact on finite operands). -/
noncomputable def FP.sub : FP → FP → FP
  | .nan, _ => .nan
  | _, .nan => .nan
  | .fin a, .fin b => .fin (a - b)
  | .fin _, .inf s => .inf (!s)
  | .inf s, .fin _ => .inf s
  | .inf s, .inf t => if s = t then .nan else .inf s

/-- IEEE multiplication (exact on finite operands); `0 * inf = NaN`. -/
noncomputable def FP.mul : FP → FP → FP
  | .nan, _ => .nan
  | _, .nan => .nan
  | .fin a, .fin b => .fin (a * b)
  | .fin a, .inf s => if a = 0 then .nan else .inf (xor (decide (a < 0)) s)
  | .inf s, .fin b => if b = 0 then .nan else .inf (xor s (decide (b < 0)))
  | .inf s, .inf t => .inf (xor s t)

/-- IEEE division (exact on finite operands); a nonzero finite value
divided by zero gives an infinity, `0 / 0 = NaN`, `inf / inf = NaN`. -/
noncomputable def FP.div : FP → FP → FP
  | .nan, _ => .nan
  | _, .nan => .nan
  | .fin a, .fin b =>
      if b = 0 then (if a = 0 then .nan else .inf (decide (a < 0)))
      else .fin (a / b)
  | .fin _, .inf _ => .fin 0
  | .inf s, .fin b => .inf (xor s (decide (b < 0)))
  | .inf s, .inf _ => .inf s

/-- `sqrtf`: NaN on negative (and NaN) input, exact square root otherwise. -/
noncomputable def FP.sqrt : FP → FP
  | .nan => .nan
  | .inf s => if s then .nan else .inf false
  | .fin a => if a < 0 then .nan else .fin (Real.sqrt a)

@[simp] theorem FP.lt_fin_fin (a b : ℝ) : FP.lt (.fin a) (.fin b) ↔ a < b := Iff.rfl

@[simp] theorem FP.add_fin_fin (a b : ℝ) : FP.add (.fin a) (.fin b) = .fin (a + b) := rfl

@[simp] theorem FP.sub_fin_fin (a b : ℝ) : FP.sub (.fin a) (.fin b) = .fin (a - b) := rfl

@[simp] theorem FP.mul_fin_fin (a b : ℝ) : FP.mul (.fin a) (.fin b) = .fin (a * b) := rfl

theorem FP.div_fin_fin (a b : ℝ) (hb : b ≠ 0) :
    FP.div (.fin a) (.fin b) = .fin (a / b) := by
  simp [FP.div, hb]

theorem FP.sqrt_fin (a : ℝ) (ha : 0 ≤ a) :
    FP.sqrt (.fin a) = .fin (Real.sqrt a) := by
  simp [FP.sqrt, not_lt.mpr ha]

/-- The epsilon threshold used by `Vector2f::Normalize`
(`KINDA_SMALL_FLOAT = 0.0000001f`, i.e. 1e-7; we use the exact decimal
value). -/
noncomputable def epsNormalize : ℝ := 1 / 10000000

/-- `class Vector2f { ... float x, y; }` -/
structure Vector2f where
  x : FP
  y : FP

/-- `Vector2f() : x(), y() {}` — value-initialization of `float` members
yields `0.0f` for each. -/
noncomputable def Vector2f.ctorDefault : Vector2f := ⟨.fin 0, .fin 0⟩

/-- `Vector2f(const float value) : x(value), y(value) {}` -/
def Vector2f.ctorScalar (value : FP) : Vector2f := ⟨value, value⟩

/-- `Vector2f(const float x, const float y) : x(x), y(y) {}` -/
def Vector2f.ctorXY (x y : FP) : Vector2f := ⟨x, y⟩

/-- `Vector2f::Zero = Vector2f(0.f)` -/
noncomputable def Vector2f.Zero : Vector2f := Vector2f.ctorScalar (.fin 0)

/-- `Vector2f::One = Vector2f(1.f)` -/
noncomputable def Vector2f.One : Vector2f := Vector2f.ctorScalar (.fin 1)

/-- `Vector2f::AxisX = Vector2f(1.f, 0.f)` -/
noncomputable def Vector2f.AxisX : Vector2f := Vector2f.ctorXY (.fin 1) (.fin 0)

/-- `Vector2f::AxisY = Vector2f(0.f, 1.f)` -/
noncomputable def Vector2f.AxisY : Vector2f := Vector2f.ctorXY (.fin 0) (.fin 1)

/-- `operator==`: `(x == rhs.x) && (y == rhs.y)` with IEEE `==`. -/
def Vector2f.opEq (lhs rhs : Vector2f) : Prop :=
  FP.ieeeEq lhs.x rhs.x ∧ FP.ieeeEq lhs.y rhs.y

/-- `operator!=`: `(x != rhs.x) || (y != rhs.y)` with IEEE `!=`. -/
def Vector2f.opNe (lhs rhs : Vector2f) : Prop :=
  FP.ieeeNe lhs.x rhs.x ∨ FP.ieeeNe lhs.y rhs.y

/-- `operator+(const Vector2f& rhs)`: componentwise addition. -/
noncomputable def Vector2f.opAdd (lhs rhs : Vector2f) : Vector2f :=
  ⟨FP.add lhs.x rhs.x, FP.add lhs.y rhs.y⟩

/-- `operator-(const Vector2f& rhs)`: componentwise subtraction. -/
noncomputable def Vector2f.opSub (lhs rhs : Vector2f) : Vector2f :=
  ⟨FP.sub lhs.x rhs.x, FP.sub lhs.y rhs.y⟩

/-- `operator*(const float rhs)` / `operator*=`: scalar multiplication. -/
noncomputable def Vector2f.opMulScalar (lhs : Vector2f) (rhs : FP) : Vector2f :=
  ⟨FP.mul lhs.x rhs, FP.mul lhs.y rhs⟩

/-- `operator/(const float rhs)` / `operator/=`: scalar division. -/
noncomputable def Vector2f.opDivScalar (lhs : Vector2f) (rhs : FP) : Vector2f :=
  ⟨FP.div lhs.x rhs, FP.div lhs.y rhs⟩

/-- `Length()`: `math::Sqrt(x * x + y * y)`. -/
noncomputable def Vector2f.Length (v : Vector2f) : FP :=
  FP.sqrt (FP.add (FP.mul v.x v.x) (FP.mul v.y v.y))

/-- `LengthSqr()`: `x * x + y * y`. -/
noncomputable def Vector2f.LengthSqr (v : Vector2f) : FP :=
  FP.add (FP.mul v.x v.x) (FP.mul v.y v.y)

/-- `Limit(const float value)`:
`const float length = Length(); if (length > value) *this *= (value / length);`
modelled as a function from the old state to the new state. -/
noncomputable def Vector2f.Limit (v : Vector2f) (value : FP) : Vector2f :=
  let length := v.Length
  if FP.lt value length then v.opMulScalar (FP.div value length) else v

/-- `Normalize()`:
`if (length > epsilon) *this *= 1.f / length; else x = y = 0.f;`
modelled as a function from the old state to the new state. -/
noncomputable def Vector2f.Normalize (v : Vector2f) : Vector2f :=
  let length := v.Length
  if FP.lt (.fin epsNormalize) length
  then v.opMulScalar (FP.div (.fin 1) length)
  else ⟨.fin 0, .fin 0⟩

/-- `NormalizeUnsafe()` (source name `Vector2f::NormalizeUnsafe`):
`*this *= 1.f / Length();` with no epsilon guard, modelled as a function
from the old state to the new state. -/
noncomputable def Vector2f.NormalizeUnguarded (v : Vector2f) : Vector2f :=
  v.opMulScalar (FP.div (.fin 1) v.Length)

/-- `Limited(const float value)`:
`Vector2f result(*this); result.Limit(value); return result;` -/
noncomputable def Vector2f.Limited (v : Vector2f) (value : FP) : Vector2f :=
  let result := v
  result.Limit value

/-- `Normalized()`:
`Vector2f result(*this); result.Normalize(); return result;` -/
noncomputable def Vector2f.Normalized (v : Vector2f) : Vector2f :=
  let result := v
  result.Normalize

/-- `NormalizedUnsafe()` (source name `Vector2f::NormalizedUnsafe`):
`Vector2f result(*this); result.NormalizeUnsafe(); return result;` -/
noncomputable def Vector2f.NormalizedUnguarded (v : Vector2f) : Vector2f :=
  let result := v
  result.NormalizeUnguarded

/-- `math::Divide`: componentwise division. -/
noncomputable def math.Divide (a b : Vector2f) : Vector2f :=
  ⟨FP.div a.x b.x, FP.div a.y b.y⟩

/-- `math::Multiply`: componentwise multiplication. -/
noncomputable def math.Multiply (a b : Vector2f) : Vector2f :=
  ⟨FP.mul a.x b.x, FP.mul a.y b.y⟩

/-- `math::Dot`: `a.x * b.x + a.y * b.y`. -/
noncomputable def math.Dot (a b : Vector2f) : FP :=
  FP.add (FP.mul a.x b.x) (FP.mul a.y b.y)

/-- `math::Reflect`:
`const float dot2 = -2.0f * math::Dot(vector, normal);`
`return math::Multiply(Vector2f(dot2), normal) + vector;` -/
noncomputable def math.Reflect (vector normal : Vector2f) : Vector2f :=
  let dot2 := FP.mul (.fin (-2)) (math.Dot vector normal)
  (math.Multiply (Vector2f.ctorScalar dot2) normal).opAdd vector

/-- `math::Sign`: `(value < 0.0f) ? -1.0f : 1.0f` with IEEE `<`. -/
noncomputable def math.Sign (value : FP) : FP :=
  if FP.lt value (.fin 0) then .fin (-1) else .fin 1

/-- `std::ceilf` on the model: exact ceiling of a finite value. -/
noncomputable def FP.ceil : FP → FP
  | .nan => .nan
  | .inf s => .inf s
  | .fin a => .fin ((⌈a⌉ : ℤ) : ℝ)

/-- `std::floorf` on the model: exact floor of a finite value. -/
noncomputable def FP.floor : FP → FP
  | .nan => .nan
  | .inf s => .inf s
  | .fin a => .fin ((⌊a⌋ : ℤ) : ℝ)

/-- `std::roundf` on the model: nearest integer, halves away from zero. -/
noncomputable def FP.roundAway : FP → FP
  | .nan => .nan
  | .inf s => .inf s
  | .fin a => .fin (if a < 0 then ((⌈a - 1/2⌉ : ℤ) : ℝ) else ((⌊a + 1/2⌋ : ℤ) : ℝ))

/-- `math::Ceiling(const float value)` (the `Type = float` instantiation):
`static_cast<float>(std::ceilf(value))`. -/
noncomputable def math.Ceiling (value : FP) : FP := FP.ceil value

/-- `math::Ceiling(const float value, const float multiplier)`:
`Ceiling<Type>(value / multiplier) * multiplier`. -/
noncomputable def math.Ceiling2 (value multiplier : FP) : FP :=
  FP.mul (math.Ceiling (FP.div value multiplier)) multiplier

/-- `math::Floor(const float value)` (the `Type = float` instantiation):
`static_cast<float>(std::floorf(value))`. -/
noncomputable def math.Floor (value : FP) : FP := FP.floor value

/-- `math::Floor(const float value, const float multiplier)`:
`Floor<Type>(value / multiplier) * multiplier`. -/
noncomputable def math.Floor2 (value multiplier : FP) : FP :=
  FP.mul (math.Floor (FP.div value multiplier)) multiplier

/-- `math::Round(const float value)` (the `Type = float` instantiation):
`static_cast<float>(std::roundf(value))`. -/
noncomputable def math.Round (value : FP) : FP := FP.roundAway value

/-- `math::Round(const float value, const float multiplier)`:
`Round<Type>(value / multiplier) * multiplier`. -/
noncomputable def math.Round2 (value multiplier : FP) : FP :=
  FP.mul (math.Round (FP.div value multiplier)) multiplier

/-! ## Helper lemmas -/

theorem Vector2f.Length_fin (a b : ℝ) :
    Vector2f.Length ⟨.fin a, .fin b⟩ = .fin (Real.sqrt (a * a + b * b)) := by
  unfold Vector2f.Length
  rw [FP.mul_fin_fin, FP.mul_fin_fin, FP.add_fin_fin,
    FP.sqrt_fin _ (add_nonneg (mul_self_nonneg a) (mul_self_nonneg b))]

theorem Vector2f.Length_opMulScalar_fin (a b k : ℝ) (hk : 0 ≤ k) :
    Vector2f.Length (Vector2f.opMulScalar ⟨.fin a, .fin b⟩ (.fin k)) =
      .fin (Real.sqrt (a * a + b * b) * k) := by
  show Vector2f.Length ⟨.fin (a * k), .fin (b * k)⟩ = _
  rw [Vector2f.Length_fin]
  have h : a * k * (a * k) + b * k * (b * k) = (a * a + b * b) * (k * k) := by ring
  rw [h, Real.sqrt_mul (add_nonneg (mul_self_nonneg a) (mul_self_nonneg b)),
    Real.sqrt_mul_self hk]

theorem FP.ieeeNe_iff_not_ieeeEq (a b : FP) : FP.ieeeNe a b ↔ ¬ FP.ieeeEq a b := by
  cases a <;> cases b <;> simp [FP.ieeeNe, FP.ieeeEq]

/-! ## Claims -/

/-- C3: `NormalizeUnsafe()` always divides the vector by its current length
with no epsilon guard; applied to the `(0,0)` vector it produces a vector
with both components NaN. -/
theorem claim_C3_normalizeUnguarded (v : Vector2f) :
    v.NormalizeUnguarded = v.opMulScalar (FP.div (.fin 1) v.Length) ∧
    Vector2f.NormalizeUnguarded ⟨.fin 0, .fin 0⟩ = ⟨FP.nan, FP.nan⟩ := by
  refine ⟨rfl, ?_⟩
  show Vector2f.opMulScalar _ (FP.div (.fin 1) (Vector2f.Length ⟨.fin 0, .fin 0⟩)) = _
  rw [Vector2f.Length_fin]
  norm_num [Vector2f.opMulScalar, FP.div, FP.mul]

/-- C4: `Sign(value)` returns -1 when `value` is negative and +1 when
`value` is zero or positive. -/
theorem claim_C4_sign (x : ℝ) :
    (x < 0 → math.Sign (.fin x) = .fin (-1)) ∧
    (0 ≤ x → math.Sign (.fin x) = .fin 1) := by
  constructor <;> intro h
  · simp [math.Sign, FP.lt, h]
  · simp [math.Sign, FP.lt, not_lt.mpr h]

/-- C4 witness: `Sign(0.0) == 1.0` and `Sign(-0.0001) == -1.0`. -/
theorem claim_C4_sign_witness :
    math.Sign (.fin 0) = .fin 1 ∧ math.Sign (.fin (-1 / 10000)) = .fin (-1) :=
  ⟨(claim_C4_sign 0).2 le_rfl, (claim_C4_sign (-1 / 10000)).1 (by norm_num)⟩

/-- C8: the non-mutating `Limited` / `Normalized` / `NormalizedUnsafe`
return exactly the value the corresponding mutating operation produces on
a copy of the receiver (the receiver itself is a value that the model's
state-passing functions never alter). -/
theorem claim_C8_nonmutating (v : Vector2f) (value : FP) :
    v.Limited value = v.Limit value ∧
    v.Normalized = v.Normalize ∧
    v.NormalizedUnguarded = v.NormalizeUnguarded :=
  ⟨rfl, rfl, rfl⟩

/-- C9: the zero-argument constructor yields components both exactly 0
(equal to `Vector2f::Zero`); `Vector2f(v)` yields `(v, v)`;
`Vector2f(x, y)` yields exactly those components. -/
theorem claim_C9_constructors (value x y : FP) :
    Vector2f.ctorDefault = Vector2f.Zero ∧
    Vector2f.ctorDefault.x = FP.fin 0 ∧ Vector2f.ctorDefault.y = FP.fin 0 ∧
    Vector2f.ctorScalar value = ⟨value, value⟩ ∧
    Vector2f.ctorXY x y = ⟨x, y⟩ :=
  ⟨rfl, rfl, rfl, rfl, rfl⟩

/-- C10: for all vectors, including ones with NaN components,
`operator!=` is exactly the logical negation of `operator==`. -/
theorem claim_C10_ne_iff_not_eq (a b : Vector2f) :
    Vector2f.opNe a b ↔ ¬ Vector2f.opEq a b := by
  unfold Vector2f.opNe Vector2f.opEq
  rw [FP.ieeeNe_iff_not_ieeeEq, FP.ieeeNe_iff_not_ieeeEq]
  tauto

/-- C1 counterexample: the vector `(1e-7, 0)` has length exactly the
epsilon threshold, hence NOT below it, yet `Normalize()` sets it to
`(0,0)`, whose length is 0 — not approximately 1. -/
theorem claim_C1_counterexample :
    ¬ FP.lt (Vector2f.Length ⟨.fin epsNormalize, .fin 0⟩) (.fin epsNormalize) ∧
    Vector2f.Length (Vector2f.Normalize ⟨.fin epsNormalize, .fin 0⟩) = .fin 0 := by
  have heps : (0:ℝ) ≤ epsNormalize := by norm_num [epsNormalize]
  have hlen : Vector2f.Length ⟨.fin epsNormalize, .fin 0⟩ = .fin epsNormalize := by
    rw [Vector2f.Length_fin]
    rw [show epsNormalize * epsNormalize + 0 * 0 = epsNormalize * epsNormalize by ring]
    rw [Real.sqrt_mul_self heps]
  constructor
  · rw [hlen]; simp
  · unfold Vector2f.Normalize
    rw [hlen, if_neg (by simp)]
    rw [Vector2f.Length_fin]
    norm_num

/-- C1 (amended): `Normalize()` sets a vector whose length is at or below
the epsilon threshold 1e-7 to exactly `(0,0)` (in particular `(0,0)`
itself), and scales a vector whose length is strictly above the threshold
to length exactly 1 (in the exact-arithmetic model; "approximately 1" in
actual floats). -/
theorem claim_C1_normalize (a b : ℝ) :
    (¬ FP.lt (.fin epsNormalize) (Vector2f.Length ⟨.fin a, .fin b⟩) →
      Vector2f.Normalize ⟨.fin a, .fin b⟩ = ⟨.fin 0, .fin 0⟩) ∧
    (FP.lt (.fin epsNormalize) (Vector2f.Length ⟨.fin a, .fin b⟩) →
      Vector2f.Length (Vector2f.Normalize ⟨.fin a, .fin b⟩) = .fin 1) := by
  constructor <;> intro h
  · unfold Vector2f.Normalize
    rw [if_neg h]
  · have hl : Vector2f.Length ⟨.fin a, .fin b⟩ = .fin (Real.sqrt (a * a + b * b)) :=
      Vector2f.Length_fin a b
    set l : ℝ := Real.sqrt (a * a + b * b) with hldef
    have hlpos : 0 < l := by
      have := h
      rw [hl] at this
      have heps : (0:ℝ) < epsNormalize := by norm_num [epsNormalize]
      exact lt_trans heps this
    unfold Vector2f.Normalize
    rw [if_pos h, hl, FP.div_fin_fin 1 l (ne_of_gt hlpos),
        Vector2f.Length_opMulScalar_fin a b (1 / l) (by positivity)]
    rw [← hldef]
    congr 1
    field_simp

/-- C1 witness: `Normalize()` on `(0,0)` gives exactly `(0,0)`, and on
`(3,4)` (length 5, above the threshold) gives a vector of length 1. -/
theorem claim_C1_witness :
    Vector2f.Normalize ⟨.fin 0, .fin 0⟩ = ⟨.fin 0, .fin 0⟩ ∧
    Vector2f.Length (Vector2f.Normalize ⟨.fin 3, .fin 4⟩) = .fin 1 := by
  have h5 : Real.sqrt (3 * 3 + 4 * 4 : ℝ) = 5 := by
    rw [show (3 * 3 + 4 * 4 : ℝ) = 5 * 5 by norm_num]
    exact Real.sqrt_mul_self (by norm_num)
  refine ⟨(claim_C1_normalize 0 0).1 ?_, (claim_C1_normalize 3 4).2 ?_⟩
  · rw [Vector2f.Length_fin]
    norm_num [epsNormalize]
  · rw [Vector2f.Length_fin, h5]
    norm_num [epsNormalize]

/-- C2 counterexample: with `maxLen = -1` and `v = (1,0)` (length 1 >
maxLen), `Limit(-1)` produces `(-1,0)`: its length is 1, not approximately
`maxLen = -1`, and its direction is opposite to `v`, not the same. -/
theorem claim_C2_counterexample :
    Vector2f.Limit ⟨.fin 1, .fin 0⟩ (.fin (-1)) = ⟨.fin (-1), .fin 0⟩ ∧
    Vector2f.Length (Vector2f.Limit ⟨.fin 1, .fin 0⟩ (.fin (-1))) = .fin 1 := by
  have hlen : Vector2f.Length ⟨.fin 1, .fin 0⟩ = .fin 1 := by
    rw [Vector2f.Length_fin]
    norm_num
  have hres : Vector2f.Limit ⟨.fin 1, .fin 0⟩ (.fin (-1)) = ⟨.fin (-1), .fin 0⟩ := by
    unfold Vector2f.Limit
    rw [hlen, if_pos (by norm_num), FP.div_fin_fin (-1) 1 one_ne_zero]
    show Vector2f.opMulScalar _ (.fin (-1 / 1)) = _
    unfold Vector2f.opMulScalar
    norm_num
  refine ⟨hres, ?_⟩
  rw [hres, Vector2f.Length_fin]
  norm_num

/-- C2 (amended): if `v.Length() <= maxLen` then `Limit(maxLen)` leaves the
vector unchanged (this part holds for every `maxLen`); if additionally
`maxLen >= 0` and `v.Length() > maxLen`, the result has length exactly
`maxLen` (in the exact-arithmetic model) and is `v` scaled by a nonnegative
factor, i.e. it keeps `v`'s direction.  For `maxLen < 0` the scale factor
is negative (or the result is NaN at length 0), so the original claim
fails there. -/
theorem claim_C2_limit (a b s : ℝ) :
    (¬ FP.lt (.fin s) (Vector2f.Length ⟨.fin a, .fin b⟩) →
      Vector2f.Limit ⟨.fin a, .fin b⟩ (.fin s) = ⟨.fin a, .fin b⟩) ∧
    (0 ≤ s → FP.lt (.fin s) (Vector2f.Length ⟨.fin a, .fin b⟩) →
      Vector2f.Length (Vector2f.Limit ⟨.fin a, .fin b⟩ (.fin s)) = .fin s ∧
      ∃ k : ℝ, 0 ≤ k ∧
        Vector2f.Limit ⟨.fin a, .fin b⟩ (.fin s) = ⟨.fin (a * k), .fin (b * k)⟩) := by
  constructor
  · intro h
    unfold Vector2f.Limit
    rw [if_neg h]
  · intro hs h
    have hl : Vector2f.Length ⟨.fin a, .fin b⟩ = .fin (Real.sqrt (a * a + b * b)) :=
      Vector2f.Length_fin a b
    set l : ℝ := Real.sqrt (a * a + b * b) with hldef
    have hlpos : 0 < l := by
      have := h
      rw [hl] at this
      exact lt_of_le_of_lt hs this
    have hres : Vector2f.Limit ⟨.fin a, .fin b⟩ (.fin s) =
        ⟨.fin (a * (s / l)), .fin (b * (s / l))⟩ := by
      unfold Vector2f.Limit
      rw [if_pos h, hl, FP.div_fin_fin s l (ne_of_gt hlpos)]
      rfl
    refine ⟨?_, s / l, div_nonneg hs (le_of_lt hlpos), hres⟩
    have : Vector2f.Limit ⟨.fin a, .fin b⟩ (.fin s) =
        Vector2f.opMulScalar ⟨.fin a, .fin b⟩ (.fin (s / l)) := by
      rw [hres]; rfl
    rw [this, Vector2f.Length_opMulScalar_fin a b (s / l)
      (div_nonneg hs (le_of_lt hlpos)), ← hldef]
    congr 1
    field_simp

/-- C2 witness: `(3,4)` has length 5; `Limit(10)` leaves it unchanged, and
`Limit(1)` scales it down to length 1, remaining a nonnegative multiple of
the original. -/
theorem claim_C2_witness :
    Vector2f.Limit ⟨.fin 3, .fin 4⟩ (.fin 10) = ⟨.fin 3, .fin 4⟩ ∧
    Vector2f.Length (Vector2f.Limit ⟨.fin 3, .fin 4⟩ (.fin 1)) = .fin 1 := by
  have h5 : Real.sqrt (3 * 3 + 4 * 4 : ℝ) = 5 := by
    rw [show (3 * 3 + 4 * 4 : ℝ) = 5 * 5 by norm_num]
    exact Real.sqrt_mul_self (by norm_num)
  refine ⟨(claim_C2_limit 3 4 10).1 ?_, ((claim_C2_limit 3 4 1).2 (by norm_num) ?_).1⟩
  · rw [Vector2f.Length_fin, h5]
    norm_num
  · rw [Vector2f.Length_fin, h5]
    norm_num

/-- C5: the two-argument `Ceiling` / `Floor` / `Round` each divide by the
multiplier, apply the single-argument rounding function, and multiply
back; in particular `Floor(7, 5) == 5` and `Ceiling(7, 5) == 10`. -/
theorem claim_C5_multiple_rounding (value multiplier : FP) :
    math.Ceiling2 value multiplier =
      FP.mul (math.Ceiling (FP.div value multiplier)) multiplier ∧
    math.Floor2 value multiplier =
      FP.mul (math.Floor (FP.div value multiplier)) multiplier ∧
    math.Round2 value multiplier =
      FP.mul (math.Round (FP.div value multiplier)) multiplier ∧
    math.Floor2 (.fin 7) (.fin 5) = .fin 5 ∧
    math.Ceiling2 (.fin 7) (.fin 5) = .fin 10 := by
  have hdiv : FP.div (.fin 7) (.fin 5) = .fin (7 / 5 : ℝ) :=
    FP.div_fin_fin 7 5 (by norm_num)
  have hfloor : (⌊(7 / 5 : ℝ)⌋ : ℤ) = 1 := by
    rw [Int.floor_eq_iff]
    norm_num
  have hceil : (⌈(7 / 5 : ℝ)⌉ : ℤ) = 2 := by
    rw [Int.ceil_eq_iff]
    norm_num
  refine ⟨rfl, rfl, rfl, ?_, ?_⟩
  · unfold math.Floor2 math.Floor
    rw [hdiv]
    show FP.mul (.fin ((⌊(7 / 5 : ℝ)⌋ : ℤ) : ℝ)) (.fin 5) = .fin 5
    rw [hfloor, FP.mul_fin_fin]
    norm_num
  · unfold math.Ceiling2 math.Ceiling
    rw [hdiv]
    show FP.mul (.fin ((⌈(7 / 5 : ℝ)⌉ : ℤ) : ℝ)) (.fin 5) = .fin 10
    rw [hceil, FP.mul_fin_fin]
    norm_num

/-- C6: `Reflect(vector, normal)` equals `vector - 2*(vector·normal)*normal`
(stated with the model's vector subtraction and scalar multiplication, and
componentwise in exact arithmetic); in particular
`Reflect((1,-1), (0,1)) == (1,1)`. -/
theorem claim_C6_reflect (vx vy nx ny : ℝ) :
    math.Reflect ⟨.fin vx, .fin vy⟩ ⟨.fin nx, .fin ny⟩ =
      Vector2f.opSub ⟨.fin vx, .fin vy⟩
        (Vector2f.opMulScalar ⟨.fin nx, .fin ny⟩
          (FP.mul (.fin 2) (math.Dot ⟨.fin vx, .fin vy⟩ ⟨.fin nx, .fin ny⟩))) ∧
    math.Reflect ⟨.fin vx, .fin vy⟩ ⟨.fin nx, .fin ny⟩ =
      ⟨.fin (vx - 2 * (vx * nx + vy * ny) * nx),
       .fin (vy - 2 * (vx * nx + vy * ny) * ny)⟩ ∧
    math.Reflect ⟨.fin 1, .fin (-1)⟩ ⟨.fin 0, .fin 1⟩ = ⟨.fin 1, .fin 1⟩ := by
  refine ⟨?_, ?_, ?_⟩ <;>
    simp only [math.Reflect, math.Dot, math.Multiply, Vector2f.ctorScalar,
      Vector2f.opAdd, Vector2f.opSub, Vector2f.opMulScalar,
      FP.mul_fin_fin, FP.add_fin_fin, FP.sub_fin_fin, Vector2f.mk.injEq,
      FP.fin.injEq]
  · constructor <;> ring
  · constructor <;> ring
  · norm_num

/-- C7: componentwise `Divide` undoes componentwise `Multiply`:
`Divide(Multiply(a,b), b) = a` whenever both components of `b` are nonzero
(exactly, in the exact-arithmetic model). -/
theorem claim_C7_divide_multiply (a b c d : ℝ) (hc : c ≠ 0) (hd : d ≠ 0) :
    math.Divide (math.Multiply ⟨.fin a, .fin b⟩ ⟨.fin c, .fin d⟩)
        ⟨.fin c, .fin d⟩ = ⟨.fin a, .fin b⟩ := by
  unfold math.Divide math.Multiply
  simp only [FP.mul_fin_fin]
  rw [FP.div_fin_fin _ _ hc, FP.div_fin_fin _ _ hd]
  rw [mul_div_cancel_right₀ a hc, mul_div_cancel_right₀ b hd]

/-- C7 witness: `Divide(Multiply((1,2),(3,4)), (3,4)) = (1,2)`. -/
theorem claim_C7_witness :
    math.Divide (math.Multiply ⟨.fin 1, .fin 2⟩ ⟨.fin 3, .fin 4⟩)
        ⟨.fin 3, .fin 4⟩ = ⟨.fin 1, .fin 2⟩ :=
  claim_C7_divide_multiply 1 2 3 4 (by norm_num) (by norm_num)
